import Mathlib

/-!
Verification of the Velt + Babylon.js comment-anchor core
(`useVeltBabylonComments.ts`, `VeltBabylonComments.tsx`,
`useVeltCreateCommentAnchors.ts`).

The embedding uses exact rational arithmetic for the 3D math.  Matrices are
4x4 in Babylon's row-major, row-vector convention: a point `v` is transformed
as the homogeneous row vector `(v.x, v.y, v.z, 1) * M`, followed by the
perspective divide (Babylon `Vector3.TransformCoordinates`).
-/

/-- 3D vector of rationals (Babylon `Vector3`). -/
@[ext]
structure Vec3 where
  x : ℚ
  y : ℚ
  z : ℚ
deriving DecidableEq

/-- 2D vector (screen coordinates). -/
structure Vec2 where
  x : ℚ
  y : ℚ
deriving DecidableEq

/-- Homogeneous 4-component vector. -/
@[ext]
structure Vec4 where
  x : ℚ
  y : ℚ
  z : ℚ
  w : ℚ
deriving DecidableEq

/-- 4x4 matrix, entry `aij` sits at row `i`, column `j` (Babylon stores the
flat array `m[4*i+j]`). -/
@[ext]
structure Mat4 where
  a00 : ℚ
  a01 : ℚ
  a02 : ℚ
  a03 : ℚ
  a10 : ℚ
  a11 : ℚ
  a12 : ℚ
  a13 : ℚ
  a20 : ℚ
  a21 : ℚ
  a22 : ℚ
  a23 : ℚ
  a30 : ℚ
  a31 : ℚ
  a32 : ℚ
  a33 : ℚ
deriving DecidableEq

/-- Babylon `Vector3.Dot`. -/
def dot3 (a b : Vec3) : ℚ := a.x * b.x + a.y * b.y + a.z * b.z

/-- Babylon `Vector3.scale`. -/
def Vec3.scale (v : Vec3) (c : ℚ) : Vec3 := ⟨v.x * c, v.y * c, v.z * c⟩

/-- Babylon `Vector3.add`. -/
def Vec3.add (a b : Vec3) : Vec3 := ⟨a.x + b.x, a.y + b.y, a.z + b.z⟩

/-- Componentwise scaling of a homogeneous vector. -/
def Vec4.scale (c : ℚ) (u : Vec4) : Vec4 := ⟨c * u.x, c * u.y, c * u.z, c * u.w⟩

/-- Row-vector application `u * M` (Babylon's transform convention). -/
def hv (u : Vec4) (M : Mat4) : Vec4 :=
  ⟨u.x * M.a00 + u.y * M.a10 + u.z * M.a20 + u.w * M.a30,
   u.x * M.a01 + u.y * M.a11 + u.z * M.a21 + u.w * M.a31,
   u.x * M.a02 + u.y * M.a12 + u.z * M.a22 + u.w * M.a32,
   u.x * M.a03 + u.y * M.a13 + u.z * M.a23 + u.w * M.a33⟩

/-- Lift a 3D point to homogeneous coordinates with `w = 1`. -/
def homog (v : Vec3) : Vec4 := ⟨v.x, v.y, v.z, 1⟩

/-- Babylon `Vector3.TransformCoordinates`: transform the homogeneous point
and divide by the resulting `w`. -/
def transformCoordinates (v : Vec3) (M : Mat4) : Vec3 :=
  ⟨(hv (homog v) M).x / (hv (homog v) M).w,
   (hv (homog v) M).y / (hv (homog v) M).w,
   (hv (homog v) M).z / (hv (homog v) M).w⟩

/-- Matrix product, `(A.mul B)` composes row-vector transforms `A` then `B`
(Babylon `Matrix.multiply`). -/
def Mat4.mul (A B : Mat4) : Mat4 :=
  ⟨A.a00 * B.a00 + A.a01 * B.a10 + A.a02 * B.a20 + A.a03 * B.a30,
   A.a00 * B.a01 + A.a01 * B.a11 + A.a02 * B.a21 + A.a03 * B.a31,
   A.a00 * B.a02 + A.a01 * B.a12 + A.a02 * B.a22 + A.a03 * B.a32,
   A.a00 * B.a03 + A.a01 * B.a13 + A.a02 * B.a23 + A.a03 * B.a33,
   A.a10 * B.a00 + A.a11 * B.a10 + A.a12 * B.a20 + A.a13 * B.a30,
   A.a10 * B.a01 + A.a11 * B.a11 + A.a12 * B.a21 + A.a13 * B.a31,
   A.a10 * B.a02 + A.a11 * B.a12 + A.a12 * B.a22 + A.a13 * B.a32,
   A.a10 * B.a03 + A.a11 * B.a13 + A.a12 * B.a23 + A.a13 * B.a33,
   A.a20 * B.a00 + A.a21 * B.a10 + A.a22 * B.a20 + A.a23 * B.a30,
   A.a20 * B.a01 + A.a21 * B.a11 + A.a22 * B.a21 + A.a23 * B.a31,
   A.a20 * B.a02 + A.a21 * B.a12 + A.a22 * B.a22 + A.a23 * B.a32,
   A.a20 * B.a03 + A.a21 * B.a13 + A.a22 * B.a23 + A.a23 * B.a33,
   A.a30 * B.a00 + A.a31 * B.a10 + A.a32 * B.a20 + A.a33 * B.a30,
   A.a30 * B.a01 + A.a31 * B.a11 + A.a32 * B.a21 + A.a33 * B.a31,
   A.a30 * B.a02 + A.a31 * B.a12 + A.a32 * B.a22 + A.a33 * B.a32,
   A.a30 * B.a03 + A.a31 * B.a13 + A.a32 * B.a23 + A.a33 * B.a33⟩

/-- Identity matrix (Babylon `Matrix.Identity`). -/
def idMat4 : Mat4 := ⟨1, 0, 0, 0, 0, 1, 0, 0, 0, 0, 1, 0, 0, 0, 0, 1⟩

/-- Determinant of a 3x3 block given row by row. -/
def det3 (a b c d e f g h i : ℚ) : ℚ :=
  a * (e * i - f * h) - b * (d * i - f * g) + c * (d * h - e * g)

/-- Determinant of a 4x4 matrix (Laplace expansion along the first row, the
same quantity Babylon's `Matrix.invertToRef` computes). -/
def det4 (M : Mat4) : ℚ :=
  M.a00 * det3 M.a11 M.a12 M.a13 M.a21 M.a22 M.a23 M.a31 M.a32 M.a33
  - M.a01 * det3 M.a10 M.a12 M.a13 M.a20 M.a22 M.a23 M.a30 M.a32 M.a33
  + M.a02 * det3 M.a10 M.a11 M.a13 M.a20 M.a21 M.a23 M.a30 M.a31 M.a33
  - M.a03 * det3 M.a10 M.a11 M.a12 M.a20 M.a21 M.a22 M.a30 M.a31 M.a32

/-- Adjugate (transposed cofactor matrix): entry `(i, j)` is the cofactor of
entry `(j, i)`. -/
def adjM (M : Mat4) : Mat4 :=
  ⟨  det3 M.a11 M.a12 M.a13 M.a21 M.a22 M.a23 M.a31 M.a32 M.a33,
   - det3 M.a01 M.a02 M.a03 M.a21 M.a22 M.a23 M.a31 M.a32 M.a33,
     det3 M.a01 M.a02 M.a03 M.a11 M.a12 M.a13 M.a31 M.a32 M.a33,
   - det3 M.a01 M.a02 M.a03 M.a11 M.a12 M.a13 M.a21 M.a22 M.a23,
   - det3 M.a10 M.a12 M.a13 M.a20 M.a22 M.a23 M.a30 M.a32 M.a33,
     det3 M.a00 M.a02 M.a03 M.a20 M.a22 M.a23 M.a30 M.a32 M.a33,
   - det3 M.a00 M.a02 M.a03 M.a10 M.a12 M.a13 M.a30 M.a32 M.a33,
     det3 M.a00 M.a02 M.a03 M.a10 M.a12 M.a13 M.a20 M.a22 M.a23,
     det3 M.a10 M.a11 M.a13 M.a20 M.a21 M.a23 M.a30 M.a31 M.a33,
   - det3 M.a00 M.a01 M.a03 M.a20 M.a21 M.a23 M.a30 M.a31 M.a33,
     det3 M.a00 M.a01 M.a03 M.a10 M.a11 M.a13 M.a30 M.a31 M.a33,
   - det3 M.a00 M.a01 M.a03 M.a10 M.a11 M.a13 M.a20 M.a21 M.a23,
   - det3 M.a10 M.a11 M.a12 M.a20 M.a21 M.a22 M.a30 M.a31 M.a32,
     det3 M.a00 M.a01 M.a02 M.a20 M.a21 M.a22 M.a30 M.a31 M.a32,
   - det3 M.a00 M.a01 M.a02 M.a10 M.a11 M.a12 M.a30 M.a31 M.a32,
     det3 M.a00 M.a01 M.a02 M.a10 M.a11 M.a12 M.a20 M.a21 M.a22⟩

/-- Scale every entry of a matrix. -/
def Mat4.scaleM (c : ℚ) (M : Mat4) : Mat4 :=
  ⟨c * M.a00, c * M.a01, c * M.a02, c * M.a03,
   c * M.a10, c * M.a11, c * M.a12, c * M.a13,
   c * M.a20, c * M.a21, c * M.a22, c * M.a23,
   c * M.a30, c * M.a31, c * M.a32, c * M.a33⟩

/-- Babylon `Matrix.invert` / `invertToRef`: the adjugate divided by the
determinant when invertible; when the determinant is zero Babylon copies the
matrix unchanged into the result (`other.copyFrom(this)`). -/
def invertM (M : Mat4) : Mat4 :=
  if det4 M = 0 then M else Mat4.scaleM (det4 M)⁻¹ (adjM M)

/-! ## Projection pipeline (Babylon `Vector3.Project`, `Viewport.toGlobal`) -/

/-- Babylon `Viewport` (fractions of the render target before `toGlobal`,
pixels after). -/
structure ViewportQ where
  x : ℚ
  y : ℚ
  width : ℚ
  height : ℚ
deriving DecidableEq

/-- Babylon `Viewport.toGlobal`: scale the fractional viewport by the render
target's pixel size. -/
def ViewportQ.toGlobal (v : ViewportQ) (renderWidth renderHeight : ℚ) : ViewportQ :=
  ⟨v.x * renderWidth, v.y * renderHeight, v.width * renderWidth, v.height * renderHeight⟩

/-- The viewport matrix Babylon's `Vector3.ProjectToRef` builds: NDC to pixel
coordinates, y flipped, z mapped from [-1,1] to [0,1]. -/
def viewportMat (vp : ViewportQ) : Mat4 :=
  ⟨vp.width / 2, 0, 0, 0,
   0, -vp.height / 2, 0, 0,
   0, 0, 1 / 2, 0,
   vp.x + vp.width / 2, vp.y + vp.height / 2, 1 / 2, 1⟩

/-- Babylon `Vector3.Project(vector, world, transform, viewport)`:
transform by `world * transform * viewportMatrix` with perspective divide. -/
def project (vector : Vec3) (world transform : Mat4) (vp : ViewportQ) : Vec3 :=
  transformCoordinates vector ((world.mul transform).mul (viewportMat vp))

/-- The projection both call sites perform each time: identity world matrix,
the scene's view-projection matrix, and the camera viewport scaled to the
render target (`Vector3.Project(w, Matrix.Identity(), scene.getTransformMatrix(),
camera.viewport.toGlobal(renderW, renderH))`). -/
def frameProject (renderW renderH : ℚ) (camVp : ViewportQ) (transform : Mat4)
    (w : Vec3) : Vec3 :=
  project w idMat4 transform (camVp.toGlobal renderW renderH)

/-- CSS-pixel screen position: the projected x/y scaled by
`rect.width / renderW` and `rect.height / renderH` (the per-axis display
scale both the capture and the per-frame loop apply). -/
def screenOf (renderW renderH : ℚ) (camVp : ViewportQ) (rectW rectH : ℚ)
    (transform : Mat4) (w : Vec3) : Vec2 :=
  let p := frameProject renderW renderH camVp transform w
  ⟨p.x * (rectW / renderW), p.y * (rectH / renderH)⟩

/-! ## Environment records (the Babylon objects the hook dereferences) -/

/-- The part of a Babylon `Engine` the code reads. -/
structure EngineE where
  renderWidth : ℚ
  renderHeight : ℚ
deriving DecidableEq

/-- The part of a Babylon `ArcRotateCamera` the code reads. -/
structure CameraE where
  viewport : ViewportQ
  alpha : ℚ
  beta : ℚ
  radius : ℚ
  target : Vec3
  position : Vec3
deriving DecidableEq

/-- The canvas bounding client rect. -/
structure CanvasE where
  rectLeft : ℚ
  rectTop : ℚ
  rectWidth : ℚ
  rectHeight : ℚ
deriving DecidableEq

/-- A Babylon `AbstractMesh` as the code consumes it: identity triple plus
its current world matrix. -/
structure MeshE where
  id : String
  uniqueId : ℤ
  name : String
  worldMatrix : Mat4
deriving DecidableEq

/-- The part of a Babylon `Scene` the code reads: the view-projection matrix
(`getTransformMatrix`) and the mesh collection backing
`getMeshById` / `getMeshByUniqueId` / `getMeshByName`. -/
structure SceneE where
  transformMatrix : Mat4
  meshes : List MeshE
deriving DecidableEq

/-- Babylon `scene.getMeshById`: first mesh with the given id. -/
def getMeshById (sc : SceneE) (i : String) : Option MeshE :=
  sc.meshes.find? (fun m => m.id == i)

/-- Babylon `scene.getMeshByUniqueId`: first mesh with the given unique id. -/
def getMeshByUniqueId (sc : SceneE) (u : ℤ) : Option MeshE :=
  sc.meshes.find? (fun m => m.uniqueId == u)

/-- Babylon `scene.getMeshByName`: first mesh with the given name. -/
def getMeshByName (sc : SceneE) (n : String) : Option MeshE :=
  sc.meshes.find? (fun m => m.name == n)

/-! ## Anchor capture (`buildAnchor` in both hook variants) -/

/-- The `local` payload of a `BabylonCommentAnchor`. -/
structure LocalA where
  x : ℚ
  y : ℚ
  z : ℚ
  meshId : String
  meshUniqueId : ℤ
  meshName : String
deriving DecidableEq

/-- The camera snapshot stored on an anchor. -/
structure CameraSnap where
  alpha : ℚ
  beta : ℚ
  radius : ℚ
  target : Vec3
  position : Vec3
deriving DecidableEq

/-- `BabylonCommentAnchor`. -/
structure AnchorA where
  isOnMesh : Bool
  world : Vec3
  localData : Option LocalA
  screen : Vec2
  camera : CameraSnap
  timestamp : ℤ
deriving DecidableEq

/-- `buildAnchor(world, mesh)` from `useVeltBabylonComments` /
`useVeltCreateCommentAnchors`.  Returns `none` when any of the
scene/engine/camera/canvas refs is unavailable.  The local position is the
world point transformed by the cloned-and-inverted mesh world matrix; the
screen position is the projected point scaled to CSS pixels.  `now` stands
for `Date.now()`. -/
def buildAnchor (scene : Option SceneE) (engine : Option EngineE)
    (camera : Option CameraE) (canvas : Option CanvasE)
    (world : Vec3) (mesh : Option MeshE) (now : ℤ) : Option AnchorA :=
  match scene, engine, camera, canvas with
  | some sc, some en, some cam, some cv =>
    let invLocal : Option Vec3 :=
      match mesh with
      | some m => some (transformCoordinates world (invertM m.worldMatrix))
      | none => none
    let scr := screenOf en.renderWidth en.renderHeight cam.viewport
      cv.rectWidth cv.rectHeight sc.transformMatrix world
    some
      { isOnMesh := mesh.isSome
        world := world
        localData :=
          match invLocal, mesh with
          | some l, some m => some ⟨l.x, l.y, l.z, m.id, m.uniqueId, m.name⟩
          | _, _ => none
        screen := scr
        camera := ⟨cam.alpha, cam.beta, cam.radius, cam.target, cam.position⟩
        timestamp := now }
  | _, _, _, _ => none

/-- `setClickedAnchor(world, mesh)`: build an anchor and store it in
`clickedAnchorRef`; on a `null` build the ref is left unchanged. -/
def setClickedAnchor (scene : Option SceneE) (engine : Option EngineE)
    (camera : Option CameraE) (canvas : Option CanvasE)
    (world : Vec3) (mesh : Option MeshE) (now : ℤ)
    (ref : Option AnchorA) : Option AnchorA :=
  match buildAnchor scene engine camera canvas world mesh now with
  | none => ref
  | some a => some a

/-! ## Pointer-down capture (the `onPointerObservable` handler) -/

/-- A Babylon picking ray (`scene.createPickingRay`). -/
structure RayE where
  origin : Vec3
  direction : Vec3
deriving DecidableEq

/-- A Babylon pick result as the handler consumes it. -/
structure PickE where
  hit : Bool
  pickedPoint : Option Vec3
  pickedMesh : Option MeshE
deriving DecidableEq

/-- The ground-plane fallback of the pointer handler: intersect the picking
ray with the plane through the origin with normal `(0, 1, 0)`.
`denom = dot(normal, ray.direction)`; when `|denom| > 1e-6` compute
`t = dot(normal, -origin) / denom` and accept the point `origin + t * dir`
only when `t >= 0`; otherwise the world point is `null`. -/
def planePointFromRay (ray : RayE) : Option Vec3 :=
  let normal : Vec3 := ⟨0, 1, 0⟩
  let denom := dot3 normal ray.direction
  if 1 / 1000000 < |denom| then
    let t := dot3 normal (ray.origin.scale (-1)) / denom
    if 0 ≤ t then some (ray.origin.add (ray.direction.scale t)) else none
  else
    none

/-- World point and mesh chosen by the pointer handler: the pick result when
`pick && pick.hit && pick.pickedPoint`, else the plane fallback with no
mesh. -/
def pickOrFallback (pick : Option PickE) (ray : RayE) :
    Option (Vec3 × Option MeshE) :=
  match pick with
  | some p =>
    if p.hit then
      match p.pickedPoint with
      | some pt => some (pt, p.pickedMesh)
      | none => (planePointFromRay ray).map (fun w => (w, none))
    else (planePointFromRay ray).map (fun w => (w, none))
  | none => (planePointFromRay ray).map (fun w => (w, none))

/-- One run of the `onPointerObservable` callback, returning the anchor it
builds (or `none` when the capture aborts at any gate).  The gates mirror the
code: event type, `isPlayingRef`, `commentModeStateRef`, and the canvas
bounding rect; then pick-or-fallback; then `buildAnchor`. -/
def pointerCapture (isPointerDown isPlaying commentMode : Bool)
    (pick : Option PickE) (ray : RayE)
    (scene : Option SceneE) (engine : Option EngineE)
    (camera : Option CameraE) (canvas : Option CanvasE)
    (now : ℤ) : Option AnchorA :=
  if !isPointerDown then none
  else if isPlaying then none
  else if !commentMode then none
  else
    match canvas with
    | none => none
    | some _ =>
      match pickOrFallback pick ray with
      | none => none
      | some (world, mesh) =>
        buildAnchor scene engine camera canvas world mesh now

/-- The pointer handler's effect on `clickedAnchorRef`: store the built
anchor, keeping the previous value whenever the capture aborted. -/
def pointerDownStep (isPointerDown isPlaying commentMode : Bool)
    (pick : Option PickE) (ray : RayE)
    (scene : Option SceneE) (engine : Option EngineE)
    (camera : Option CameraE) (canvas : Option CanvasE)
    (now : ℤ) (ref : Option AnchorA) : Option AnchorA :=
  match pointerCapture isPointerDown isPlaying commentMode pick ray
      scene engine camera canvas now with
  | none => ref
  | some a => some a

/-! ## Retained-anchor delivery (the `[addHandler]` effect) -/

/-- State owned by the hook: the retained last-captured anchor
(`clickedAnchorRef`), the current Velt add handler (identified by a number,
`none` = unavailable), and the cumulative list of `addContext` calls. -/
structure HookSt where
  retained : Option AnchorA
  handler : Option ℕ
  delivered : List (AnchorA × String)
deriving DecidableEq

/-- Events the hook reacts to: a pointer capture storing an anchor into
`clickedAnchorRef`, and a change of the `useCommentAddHandler` value (which
re-runs the `[addHandler]` effect). -/
inductive HookEv where
  | capture (a : AnchorA)
  | handlerChange (h : Option ℕ)
deriving DecidableEq

/-- One step of the hook's behaviour.  On `capture` the anchor is stored (the
pointer handler performs no delivery).  On `handlerChange` the effect runs:
`if (addHandler && sceneId && clickedAnchorRef.current) addContext({...})`.
The retained anchor is never cleared after delivery. -/
def hookStep (sceneId : String) (st : HookSt) (e : HookEv) : HookSt :=
  match e with
  | .capture a => { st with retained := some a }
  | .handlerChange h =>
    match h, st.retained with
    | some hh, some a =>
      if sceneId ≠ "" then
        { retained := st.retained
          handler := some hh
          delivered := st.delivered ++ [(a, sceneId)] }
      else { st with handler := some hh }
    | _, _ => { st with handler := h }

/-- Run the hook over a sequence of events. -/
def hookRun (sceneId : String) (st : HookSt) (evs : List HookEv) : HookSt :=
  evs.foldl (hookStep sceneId) st

/-! ## Pin resolution (`rebuiltPins` memo) -/

/-- The anchor as stored on a Velt annotation: the captured anchor spread
together with the `sceneId` attached at `addContext` time. -/
structure StoredAnchor where
  anchor : AnchorA
  sceneId : String
deriving DecidableEq

/-- The `context` payload of a Velt annotation record. -/
structure CtxE where
  babylonAnchorData : Option StoredAnchor
deriving DecidableEq

/-- A Velt annotation record as the hook consumes it. -/
structure AnnRec where
  context : Option CtxE
  annId : Option String
deriving DecidableEq

/-- The scene filter predicate:
`annotation?.context?.babylonAnchorData?.sceneId === sceneId`. -/
def annMatches (sid : String) (ann : AnnRec) : Bool :=
  match ann.context with
  | some c =>
    match c.babylonAnchorData with
    | some d => d.sceneId == sid
    | none => false
  | none => false

/-- The `annotations` memo: `allAnnotations?.filter(...)`. -/
def annFilter (all : List AnnRec) (sid : String) : List AnnRec :=
  all.filter (annMatches sid)

/-- `RebuiltAnnotationPin`. -/
structure RebuiltPin where
  annId : String
  mesh : Option MeshE
  localPosition : Vec3
  worldStatic : Option Vec3
deriving DecidableEq

/-- JS `x ?? y` / the `if (!mesh) mesh = ...` reassignment pattern: keep the
first value when present, otherwise take the second. -/
def orEl (a b : Option MeshE) : Option MeshE :=
  match a with
  | some m => some m
  | none => b

/-- The mesh-resolution chain of the `rebuiltPins` loop body:
`mesh = resolveMesh?.(scene, {...}) ?? null`, then while still unresolved
`if (anchor.local.meshId) mesh = scene.getMeshById(...)`, then
`mesh = scene.getMeshByUniqueId(...)`, then `mesh = scene.getMeshByName(...)`. -/
def meshChainOf (sc : SceneE) (r : Option (SceneE → LocalA → Option MeshE))
    (l : LocalA) : Option MeshE :=
  orEl (orEl (orEl (match r with | some f => f sc l | none => none)
    (if l.meshId ≠ "" then getMeshById sc l.meshId else none))
    (getMeshByUniqueId sc l.meshUniqueId))
    (getMeshByName sc l.meshName)

/-- The loop body of the `rebuiltPins` memo for one annotation: read the
embedded anchor (skip when absent); when `anchor.isOnMesh && anchor.local`
resolve a mesh through `meshChainOf` and fall back to the stored world
position when no mesh was found; without a mesh-local payload the stored
world position is used directly, with a zero local position. -/
def resolveOne (sc : SceneE)
    (resolver : Option (SceneE → LocalA → Option MeshE))
    (ann : AnnRec) : Option RebuiltPin :=
  match ann.context with
  | none => none
  | some c =>
    match c.babylonAnchorData with
    | none => none
    | some d =>
      match d.anchor.isOnMesh, d.anchor.localData with
      | true, some l =>
        some ⟨ann.annId.getD "", meshChainOf sc resolver l,
              ⟨l.x, l.y, l.z⟩,
              match meshChainOf sc resolver l with
              | some _ => none
              | none => some d.anchor.world⟩
      | _, _ =>
        some ⟨ann.annId.getD "", none, ⟨0, 0, 0⟩, some d.anchor.world⟩

/-- The `rebuiltPins` memo: empty when the scene ref or the annotation
collection is unavailable, otherwise the scene-filtered annotations resolved
in order. -/
def rebuiltPins (scene : Option SceneE) (allAnns : Option (List AnnRec))
    (sid : String) (resolver : Option (SceneE → LocalA → Option MeshE)) :
    List RebuiltPin :=
  match scene, allAnns with
  | some sc, some all => (annFilter all sid).filterMap (resolveOne sc resolver)
  | _, _ => []

/-! ## Per-frame reprojection (the `onBeforeRenderObservable` callback) -/

/-- The inline style of a marker's mount element (the fields the callback
writes). -/
structure StyleE where
  display : String
  left : ℚ
  top : ℚ
  translate : String
deriving DecidableEq

/-- A `MarkerRecord` together with its mount element's current style. -/
structure MarkerE where
  annId : String
  mesh : Option MeshE
  localPosition : Vec3
  worldStatic : Option Vec3
  style : StyleE
deriving DecidableEq

/-- The per-frame snapshot of engine/camera/canvas/scene state the callback
reads before iterating the markers. -/
structure FrameEnv where
  renderWidth : ℚ
  renderHeight : ℚ
  cameraViewport : ViewportQ
  rectWidth : ℚ
  rectHeight : ℚ
  transformMatrix : Mat4
deriving DecidableEq

/-- The marker's world position source:
`markerRef.mesh ? TransformCoordinates(localPosition, mesh.getWorldMatrix())
: markerRef.worldStatic`. -/
def worldPosOf (m : MarkerE) : Option Vec3 :=
  match m.mesh with
  | some mm => some (transformCoordinates m.localPosition mm.worldMatrix)
  | none => m.worldStatic

/-- One iteration of the per-frame loop for one marker: skip (`continue`)
when no world position is available; otherwise project, test
`projected.z >= 0 && projected.z <= 1`, and either write
`display/left/top/transform` or set `display = 'none'`. -/
def frameMarker (env : FrameEnv) (m : MarkerE) : MarkerE :=
  match worldPosOf m with
  | none => m
  | some wp =>
    let projected := frameProject env.renderWidth env.renderHeight
      env.cameraViewport env.transformMatrix wp
    let scr := screenOf env.renderWidth env.renderHeight env.cameraViewport
      env.rectWidth env.rectHeight env.transformMatrix wp
    if 0 ≤ projected.z ∧ projected.z ≤ 1 then
      { m with style := ⟨"block", scr.x, scr.y, "translate(-50%, -50%)"⟩ }
    else
      { m with style := { m.style with display := "none" } }

/-! ## Spec-side definition and derived helpers -/

/-- The projected normalized depth the per-frame loop tests against [0, 1]. -/
def frameDepth (env : FrameEnv) (wp : Vec3) : ℚ :=
  (frameProject env.renderWidth env.renderHeight env.cameraViewport
    env.transformMatrix wp).z

/-- Modelled from the spec: the mesh-resolution order claim C6 states — the
custom resolver, then lookup by mesh id (unconditionally), then by unique id,
then by name, first non-absent result winning.  Used only to compare the
claimed order against the code's `meshChainOf`. -/
def claimMeshChain (sc : SceneE)
    (resolver : Option (SceneE → LocalA → Option MeshE)) (l : LocalA) :
    Option MeshE :=
  orEl (match resolver with | some f => f sc l | none => none)
    (orEl (getMeshById sc l.meshId)
      (orEl (getMeshByUniqueId sc l.meshUniqueId) (getMeshByName sc l.meshName)))

/-! ## Concrete example data (used by witnesses and counterexamples) -/

/-- 800x600 engine render target. -/
def demoEngine : EngineE := ⟨800, 600⟩

/-- Full-canvas camera viewport, simple orbit pose. -/
def demoCamera : CameraE := ⟨⟨0, 0, 1, 1⟩, 0, 1, 4, ⟨0, 0, 0⟩, ⟨0, 0, 4⟩⟩

/-- Canvas displayed at its render resolution. -/
def demoCanvas : CanvasE := ⟨0, 0, 800, 600⟩

/-- Scene with an identity view-projection matrix and no meshes. -/
def demoScene : SceneE := ⟨idMat4, []⟩

/-- A singular world matrix: zero scale on x (determinant 0). -/
def degMat : Mat4 := ⟨0, 0, 0, 0, 0, 1, 0, 0, 0, 0, 1, 0, 0, 0, 0, 1⟩

/-- A mesh with a degenerate world transform. -/
def degMesh : MeshE := ⟨"box", 1, "box", degMat⟩

/-- A translation by (1, 2, 3): invertible world matrix. -/
def transMat : Mat4 := ⟨1, 0, 0, 0, 0, 1, 0, 0, 0, 0, 1, 0, 1, 2, 3, 1⟩

/-- A mesh with an invertible (translation) world transform. -/
def demoMesh3 : MeshE := ⟨"m3", 3, "m3", transMat⟩

/-- Neutral camera snapshot for stored anchors. -/
def camSnap0 : CameraSnap := ⟨0, 0, 0, ⟨0, 0, 0⟩, ⟨0, 0, 0⟩⟩

/-- A mesh whose id is the empty string. -/
def emptyIdMesh : MeshE := ⟨"", 7, "m", idMat4⟩

/-- Scene containing only `emptyIdMesh`. -/
def scene6 : SceneE := ⟨idMat4, [emptyIdMesh]⟩

/-- Anchor-local payload whose stored mesh id is the empty string and whose
unique id / name match nothing in `scene6`. -/
def local6 : LocalA := ⟨0, 0, 0, "", 99, "zzz"⟩

/-- Mesh-anchored anchor carrying `local6`. -/
def anchor6 : AnchorA := ⟨true, ⟨1, 2, 3⟩, some local6, ⟨0, 0⟩, camSnap0, 0⟩

/-- Annotation record embedding `anchor6` for scene "A". -/
def ann6 : AnnRec := ⟨some ⟨some ⟨anchor6, "A"⟩⟩, some "id6"⟩

/-- A plain world-anchored (non-mesh) anchor. -/
def anchor10 : AnchorA := ⟨false, ⟨1, 0, 0⟩, none, ⟨0, 0⟩, camSnap0, 0⟩

/-- A second world-anchored anchor at a different point. -/
def anchor10b : AnchorA := ⟨false, ⟨2, 0, 0⟩, none, ⟨0, 0⟩, camSnap0, 0⟩

/-- Annotation for scene "A" with no `annotationId`. -/
def ann10a : AnnRec := ⟨some ⟨some ⟨anchor10, "A"⟩⟩, none⟩

/-- Second id-less annotation for scene "A". -/
def ann10b : AnnRec := ⟨some ⟨some ⟨anchor10b, "A"⟩⟩, none⟩

/-- A picking ray from above the ground plane, pointing straight down. -/
def ray7 : RayE := ⟨⟨0, 4, 0⟩, ⟨0, -1, 0⟩⟩

/-- Frame snapshot matching the demo engine/camera/canvas over an identity
view-projection matrix. -/
def frameEnv0 : FrameEnv := ⟨800, 600, ⟨0, 0, 1, 1⟩, 800, 600, idMat4⟩

/-- Marker with a static world position at the origin. -/
def marker8 : MarkerE := ⟨"a", none, ⟨0, 0, 0⟩, some ⟨0, 0, 0⟩, ⟨"", 0, 0, ""⟩⟩

/-- Marker with neither a mesh nor a static world position, currently
shown. -/
def marker4 : MarkerE := ⟨"a", none, ⟨0, 0, 0⟩, none, ⟨"block", 5, 6, ""⟩⟩

/-! ## Geometry lemmas -/

theorem hv_adj (u : Vec4) (M : Mat4) :
    hv (hv u (adjM M)) M = Vec4.scale (det4 M) u := by
  ext <;> simp only [hv, adjM, det4, det3, Vec4.scale] <;> ring

theorem hv_scaleM (c : ℚ) (u : Vec4) (M : Mat4) :
    hv u (Mat4.scaleM c M) = Vec4.scale c (hv u M) := by
  ext <;> simp only [hv, Mat4.scaleM, Vec4.scale] <;> ring

theorem hv_scaleU (c : ℚ) (u : Vec4) (M : Mat4) :
    hv (Vec4.scale c u) M = Vec4.scale c (hv u M) := by
  ext <;> simp only [hv, Vec4.scale] <;> ring

theorem hv_invert_cancel (u : Vec4) (M : Mat4) (hdet : det4 M ≠ 0) :
    hv (hv u (invertM M)) M = u := by
  rw [invertM, if_neg hdet, hv_scaleM, hv_scaleU, hv_adj]
  ext <;> simp only [Vec4.scale] <;> field_simp

/-- Unfolding equation for `transformCoordinates`. -/
theorem tc_unfold (p : Vec3) (M : Mat4) :
    transformCoordinates p M =
      ⟨(hv (homog p) M).x / (hv (homog p) M).w,
       (hv (homog p) M).y / (hv (homog p) M).w,
       (hv (homog p) M).z / (hv (homog p) M).w⟩ := rfl

/-- Round trip: transforming a point into a mesh's local frame with the
(Babylon-)inverted world matrix and back with the world matrix is the
identity, provided the matrix is invertible and the intermediate homogeneous
`w` does not vanish. -/
theorem tc_roundtrip (v : Vec3) (M : Mat4) (hdet : det4 M ≠ 0)
    (hw : (hv (homog v) (invertM M)).w ≠ 0) :
    transformCoordinates (transformCoordinates v (invertM M)) M = v := by
  have hc : hv (hv (homog v) (invertM M)) M = homog v := hv_invert_cancel _ _ hdet
  have h2 : homog (transformCoordinates v (invertM M))
      = Vec4.scale (hv (homog v) (invertM M)).w⁻¹ (hv (homog v) (invertM M)) := by
    ext
    · exact div_eq_inv_mul _ _
    · exact div_eq_inv_mul _ _
    · exact div_eq_inv_mul _ _
    · exact (inv_mul_cancel₀ hw).symm
  have h3 : hv (homog (transformCoordinates v (invertM M))) M
      = Vec4.scale (hv (homog v) (invertM M)).w⁻¹ (homog v) := by
    rw [h2, hv_scaleU, hc]
  have hcne : (hv (homog v) (invertM M)).w⁻¹ ≠ 0 := inv_ne_zero hw
  have hw' : (hv (⟨v.x, v.y, v.z, 1⟩ : Vec4) (invertM M)).w ≠ 0 := hw
  rw [tc_unfold (transformCoordinates v (invertM M)) M, h3]
  ext <;> simp only [Vec4.scale, homog] <;> field_simp

/-! ## Resolver lemmas -/

theorem resolveOne_matching (sc : SceneE)
    (r : Option (SceneE → LocalA → Option MeshE)) (sid : String) (ann : AnnRec)
    (h : annMatches sid ann = true) :
    ∃ p, resolveOne sc r ann = some p ∧ p.annId = ann.annId.getD "" := by
  obtain ⟨ctx, aid⟩ := ann
  cases ctx with
  | none => simp [annMatches] at h
  | some c =>
    obtain ⟨bad⟩ := c
    cases bad with
    | none => simp [annMatches] at h
    | some d =>
      obtain ⟨⟨onMesh, wld, ldata, scrn, camsn, ts⟩, dsid⟩ := d
      cases onMesh <;> cases ldata <;> exact ⟨_, rfl, rfl⟩

theorem filterMap_resolve_aux (sc : SceneE)
    (r : Option (SceneE → LocalA → Option MeshE)) (sid : String) :
    ∀ l : List AnnRec,
      ((l.filter (annMatches sid)).filterMap (resolveOne sc r)).length
          = (l.filter (annMatches sid)).length ∧
      ((l.filter (annMatches sid)).filterMap (resolveOne sc r)).map
            (fun p => p.annId)
          = (l.filter (annMatches sid)).map (fun a => a.annId.getD "") := by
  intro l
  induction l with
  | nil => simp
  | cons a t ih =>
    by_cases ha : annMatches sid a = true
    · obtain ⟨p, hp, hpid⟩ := resolveOne_matching sc r sid a ha
      simp [List.filter_cons, ha, hp, hpid, ih.1, ih.2]
    · simp only [Bool.not_eq_true] at ha
      simp [List.filter_cons, ha, ih.1, ih.2]

/-! ## Claim theorems -/

/-- C5: for every annotation collection and target sceneId, `rebuiltPins`
emits exactly one pin per annotation whose embedded anchor's sceneId equals
the target (annotations lacking an embedded anchor never pass the filter and
are skipped as a no-op), in the collection's order (witnessed by the
positional annotation-id correspondence); annotations with any other sceneId
contribute no pin. -/
theorem c5_scene_isolation (sc : SceneE) (all : List AnnRec) (sid : String)
    (r : Option (SceneE → LocalA → Option MeshE)) :
    (rebuiltPins (some sc) (some all) sid r).length
        = (all.filter (annMatches sid)).length ∧
    (rebuiltPins (some sc) (some all) sid r).map (fun p => p.annId)
        = (all.filter (annMatches sid)).map (fun a => a.annId.getD "") := by
  have h := filterMap_resolve_aux sc r sid all
  simpa [rebuiltPins, annFilter] using h

theorem orEl_assoc (a b c : Option MeshE) :
    orEl (orEl a b) c = orEl a (orEl b c) := by
  cases a <;> rfl

/-- C6 (amended): for an anchor with `isOnMesh` and a local payload, the
resolver picks the first non-absent of: the custom resolver, lookup by mesh
id (skipped when the stored mesh id is the empty string), lookup by unique
id, lookup by name; when all fail the pin has no mesh and its `worldStatic`
is the anchor's stored world position; a resolved mesh suppresses
`worldStatic`, and resolution is total (never throws). -/
theorem c6_mesh_resolution_order (sc : SceneE)
    (r : Option (SceneE → LocalA → Option MeshE)) (ann : AnnRec)
    (d : StoredAnchor) (l : LocalA)
    (hctx : ann.context = some ⟨some d⟩)
    (hm : d.anchor.isOnMesh = true)
    (hl : d.anchor.localData = some l) :
    ∃ p, resolveOne sc r ann = some p ∧
      p.mesh = orEl (match r with | some f => f sc l | none => none)
        (orEl (if l.meshId ≠ "" then getMeshById sc l.meshId else none)
          (orEl (getMeshByUniqueId sc l.meshUniqueId)
            (getMeshByName sc l.meshName))) ∧
      (p.mesh = none → p.worldStatic = some d.anchor.world) ∧
      (∀ mm, p.mesh = some mm → p.worldStatic = none) ∧
      p.localPosition = ⟨l.x, l.y, l.z⟩ := by
  obtain ⟨ctx, aid⟩ := ann
  obtain ⟨⟨onMesh, wld, ldata, scrn, camsn, ts⟩, dsid⟩ := d
  simp only at hm hl
  cases hctx
  subst hm
  subst hl
  refine ⟨_, rfl, ?_, ?_, ?_, rfl⟩
  · show meshChainOf sc r l = _
    rw [meshChainOf.eq_def, orEl_assoc, orEl_assoc]
  · intro hnone
    have h' : meshChainOf sc r l = none := hnone
    show (match meshChainOf sc r l with
          | some _ => none
          | none => some wld) = some wld
    rw [h']
  · intro mm hsome
    have h' : meshChainOf sc r l = some mm := hsome
    show (match meshChainOf sc r l with
          | some _ => none
          | none => some wld) = none
    rw [h']

/-- C6 counterexample: the claim's chain (by-id lookup always attempted)
resolves the mesh whose id is the empty string, but the code skips the by-id
lookup for a falsy (empty) stored mesh id and emits a mesh-less pin with the
static-world fallback. -/
theorem c6_counterexample :
    claimMeshChain scene6 none local6 = some emptyIdMesh ∧
    (resolveOne scene6 none ann6).map (fun p => p.mesh) = some none ∧
    (resolveOne scene6 none ann6).map (fun p => p.worldStatic)
        = some (some ⟨1, 2, 3⟩) := by
  decide

/-- C6 witness: the amended chain applies to the concrete empty-mesh-id
annotation. -/
theorem c6_mesh_resolution_order_witness :
    ann6.context = some ⟨some ⟨anchor6, "A"⟩⟩ ∧
    (∃ p, resolveOne scene6 none ann6 = some p ∧
      p.mesh = orEl (match (none : Option (SceneE → LocalA → Option MeshE)) with
          | some f => f scene6 local6 | none => none)
        (orEl (if local6.meshId ≠ "" then getMeshById scene6 local6.meshId
            else none)
          (orEl (getMeshByUniqueId scene6 local6.meshUniqueId)
            (getMeshByName scene6 local6.meshName))) ∧
      (p.mesh = none → p.worldStatic = some (⟨anchor6, "A"⟩ : StoredAnchor).anchor.world) ∧
      (∀ mm, p.mesh = some mm → p.worldStatic = none) ∧
      p.localPosition = ⟨local6.x, local6.y, local6.z⟩) :=
  ⟨rfl, c6_mesh_resolution_order scene6 none ann6 ⟨anchor6, "A"⟩ local6 rfl rfl rfl⟩

/-- C10: an annotation that passes the scene filter and carries an embedded
anchor but has no `annotationId` still yields a pin, with the empty string
substituted; two such id-less annotations yield pins with identical (empty)
annotation ids, so id uniqueness is not enforced locally. -/
theorem c10_empty_annid (sc : SceneE)
    (r : Option (SceneE → LocalA → Option MeshE)) (sid : String)
    (a1 a2 : AnnRec) (d1 d2 : StoredAnchor)
    (h1 : a1.context = some ⟨some d1⟩) (h2 : a2.context = some ⟨some d2⟩)
    (hi1 : a1.annId = none) (hi2 : a2.annId = none)
    (hs1 : d1.sceneId = sid) (hs2 : d2.sceneId = sid) :
    ∃ p1 p2, rebuiltPins (some sc) (some [a1, a2]) sid r = [p1, p2] ∧
      p1.annId = "" ∧ p2.annId = "" ∧ p1.annId = p2.annId := by
  have hm1 : annMatches sid a1 = true := by
    simp [annMatches, h1, hs1]
  have hm2 : annMatches sid a2 = true := by
    simp [annMatches, h2, hs2]
  obtain ⟨p1, hp1, hid1⟩ := resolveOne_matching sc r sid a1 hm1
  obtain ⟨p2, hp2, hid2⟩ := resolveOne_matching sc r sid a2 hm2
  have e1 : p1.annId = "" := by rw [hid1, hi1]; rfl
  have e2 : p2.annId = "" := by rw [hid2, hi2]; rfl
  refine ⟨p1, p2, ?_, e1, e2, by rw [e1, e2]⟩
  simp [rebuiltPins, annFilter, List.filter, hm1, hm2, List.filterMap, hp1, hp2]

/-- C10 witness: two concrete id-less annotations on scene "A". -/
theorem c10_empty_annid_witness :
    ann10a.annId = none ∧ ann10b.annId = none ∧
    (∃ p1 p2, rebuiltPins (some demoScene) (some [ann10a, ann10b]) "A" none
        = [p1, p2] ∧ p1.annId = "" ∧ p2.annId = "" ∧ p1.annId = p2.annId) :=
  ⟨rfl, rfl, c10_empty_annid demoScene none "A" ann10a ann10b
    ⟨anchor10, "A"⟩ ⟨anchor10b, "A"⟩ rfl rfl rfl rfl rfl rfl⟩

/-- C2 counterexample: with every dependency available and a mesh whose world
matrix is singular (`det4 degMat = 0`), `buildAnchor` still produces an
anchor, and that anchor carries a local payload — the capture is not
aborted. -/
theorem c2_counterexample :
    det4 degMesh.worldMatrix = 0 ∧
    (buildAnchor (some demoScene) (some demoEngine) (some demoCamera)
        (some demoCanvas) ⟨1, 2, 3⟩ (some degMesh) 0).map
      (fun a => a.localData.isSome) = some true :=
  ⟨by norm_num [degMesh, degMat, det4, det3], rfl⟩

/-- C2 (amended): `buildAnchor` performs no invertibility check; for a mesh
whose world matrix has determinant zero it still returns an anchor, whose
local position is the world point transformed by the *un-inverted* matrix
(Babylon's `invert` leaves a singular matrix unchanged). -/
theorem c2_singular_not_aborted (sc : SceneE) (en : EngineE) (cam : CameraE)
    (cv : CanvasE) (world : Vec3) (mesh : MeshE) (now : ℤ)
    (hdet : det4 mesh.worldMatrix = 0) :
    ∃ a, buildAnchor (some sc) (some en) (some cam) (some cv) world
        (some mesh) now = some a ∧
      a.localData = some ⟨(transformCoordinates world mesh.worldMatrix).x,
        (transformCoordinates world mesh.worldMatrix).y,
        (transformCoordinates world mesh.worldMatrix).z,
        mesh.id, mesh.uniqueId, mesh.name⟩ := by
  have hinv : invertM mesh.worldMatrix = mesh.worldMatrix := by
    rw [invertM, if_pos hdet]
  have key : buildAnchor (some sc) (some en) (some cam) (some cv) world
      (some mesh) now
      = some ⟨true, world,
          some ⟨(transformCoordinates world (invertM mesh.worldMatrix)).x,
            (transformCoordinates world (invertM mesh.worldMatrix)).y,
            (transformCoordinates world (invertM mesh.worldMatrix)).z,
            mesh.id, mesh.uniqueId, mesh.name⟩,
          screenOf en.renderWidth en.renderHeight cam.viewport cv.rectWidth
            cv.rectHeight sc.transformMatrix world,
          ⟨cam.alpha, cam.beta, cam.radius, cam.target, cam.position⟩,
          now⟩ := rfl
  rw [hinv] at key
  exact ⟨_, key, rfl⟩

/-- C2 witness: the singular-matrix hypothesis holds for the concrete
degenerate mesh and the amended conclusion follows. -/
theorem c2_singular_not_aborted_witness :
    det4 degMesh.worldMatrix = 0 ∧
    (∃ a, buildAnchor (some demoScene) (some demoEngine) (some demoCamera)
        (some demoCanvas) ⟨1, 2, 3⟩ (some degMesh) 0 = some a ∧
      a.localData = some ⟨(transformCoordinates ⟨1, 2, 3⟩ degMesh.worldMatrix).x,
        (transformCoordinates ⟨1, 2, 3⟩ degMesh.worldMatrix).y,
        (transformCoordinates ⟨1, 2, 3⟩ degMesh.worldMatrix).z,
        degMesh.id, degMesh.uniqueId, degMesh.name⟩) :=
  ⟨by norm_num [degMesh, degMat, det4, det3],
   c2_singular_not_aborted demoScene demoEngine demoCamera demoCanvas
     ⟨1, 2, 3⟩ degMesh 0 (by norm_num [degMesh, degMat, det4, det3])⟩

/-- C3: for a mesh-anchored capture with an invertible world transform, if
camera pose, viewport, canvas rectangle and mesh world transform are
unchanged, reprojecting the stored local position through the mesh's world
matrix and the same view-projection/viewport/display-scaling pipeline
reproduces the anchor's captured screen coordinates exactly. -/
theorem c3_roundtrip_identity (sc : SceneE) (en : EngineE) (cam : CameraE)
    (cv : CanvasE) (mesh : MeshE) (world : Vec3) (now : ℤ)
    (hdet : det4 mesh.worldMatrix ≠ 0)
    (hw : (hv (homog world) (invertM mesh.worldMatrix)).w ≠ 0) :
    ∃ a l, buildAnchor (some sc) (some en) (some cam) (some cv) world
        (some mesh) now = some a ∧
      a.localData = some l ∧
      transformCoordinates ⟨l.x, l.y, l.z⟩ mesh.worldMatrix = world ∧
      screenOf en.renderWidth en.renderHeight cam.viewport cv.rectWidth
          cv.rectHeight sc.transformMatrix
          (transformCoordinates ⟨l.x, l.y, l.z⟩ mesh.worldMatrix)
        = a.screen := by
  have hrt : transformCoordinates
      (transformCoordinates world (invertM mesh.worldMatrix))
      mesh.worldMatrix = world := tc_roundtrip world mesh.worldMatrix hdet hw
  refine ⟨_, ⟨(transformCoordinates world (invertM mesh.worldMatrix)).x,
    (transformCoordinates world (invertM mesh.worldMatrix)).y,
    (transformCoordinates world (invertM mesh.worldMatrix)).z,
    mesh.id, mesh.uniqueId, mesh.name⟩, rfl, rfl, ?_, ?_⟩
  · exact hrt
  · rw [hrt]

/-- C3 witness: a concrete capture on a translated mesh satisfies both
side conditions and reproduces its screen coordinates on reprojection. -/
theorem c3_roundtrip_identity_witness :
    det4 demoMesh3.worldMatrix ≠ 0 ∧
    (hv (homog ⟨1, 1, 1⟩) (invertM demoMesh3.worldMatrix)).w ≠ 0 ∧
    (∃ a l, buildAnchor (some demoScene) (some demoEngine) (some demoCamera)
        (some demoCanvas) ⟨1, 1, 1⟩ (some demoMesh3) 0 = some a ∧
      a.localData = some l ∧
      transformCoordinates ⟨l.x, l.y, l.z⟩ demoMesh3.worldMatrix = ⟨1, 1, 1⟩ ∧
      screenOf demoEngine.renderWidth demoEngine.renderHeight
          demoCamera.viewport demoCanvas.rectWidth demoCanvas.rectHeight
          demoScene.transformMatrix
          (transformCoordinates ⟨l.x, l.y, l.z⟩ demoMesh3.worldMatrix)
        = a.screen) :=
  ⟨by norm_num [demoMesh3, transMat, det4, det3],
   by norm_num [demoMesh3, transMat, det4, det3, invertM, adjM, Mat4.scaleM,
     hv, homog],
   c3_roundtrip_identity demoScene demoEngine demoCamera demoCanvas demoMesh3
     ⟨1, 1, 1⟩ 0
     (by norm_num [demoMesh3, transMat, det4, det3])
     (by norm_num [demoMesh3, transMat, det4, det3, invertM, adjM,
       Mat4.scaleM, hv, homog])⟩

/-- C4 (amended): per frame, a stored mesh reference always takes precedence
— the world position is the mesh's current world transform applied to
`localPosition`; with no mesh, `worldStatic` is used; with neither available
the marker is skipped for the frame without throwing, its overlay style left
unchanged (it is not explicitly hidden). -/
theorem c4_position_source (env : FrameEnv) (m : MarkerE) :
    (∀ mm, m.mesh = some mm →
      worldPosOf m = some (transformCoordinates m.localPosition mm.worldMatrix)) ∧
    (m.mesh = none → worldPosOf m = m.worldStatic) ∧
    (m.mesh = none → m.worldStatic = none → frameMarker env m = m) := by
  refine ⟨?_, ?_, ?_⟩
  · intro mm hmm
    rw [worldPosOf, hmm]
  · intro hnone
    rw [worldPosOf, hnone]
  · intro hnone hws
    rw [frameMarker, worldPosOf, hnone, hws]

/-- C4 counterexample: a tracked marker with neither a mesh nor a static
world position that is currently shown stays shown (`display = "block"`)
after the frame — the code `continue`s without hiding it, while the claim
says the pin is hidden for the frame. -/
theorem c4_counterexample :
    marker4.mesh = none ∧ marker4.worldStatic = none ∧
    marker4.style.display = "block" ∧
    (frameMarker frameEnv0 marker4).style.display = "block" := ⟨rfl, rfl, rfl, rfl⟩

/-- C4 witness: the amended statement applied to the concrete sourceless
marker. -/
theorem c4_position_source_witness :
    marker4.mesh = none ∧ marker4.worldStatic = none ∧
    frameMarker frameEnv0 marker4 = marker4 :=
  ⟨rfl, rfl, (c4_position_source frameEnv0 marker4).2.2 rfl rfl⟩

theorem frameMarker_some (env : FrameEnv) (m : MarkerE) (wp : Vec3)
    (h : worldPosOf m = some wp) :
    frameMarker env m =
      if 0 ≤ frameDepth env wp ∧ frameDepth env wp ≤ 1 then
        { m with style := ⟨"block",
            (screenOf env.renderWidth env.renderHeight env.cameraViewport
              env.rectWidth env.rectHeight env.transformMatrix wp).x,
            (screenOf env.renderWidth env.renderHeight env.cameraViewport
              env.rectWidth env.rectHeight env.transformMatrix wp).y,
            "translate(-50%, -50%)"⟩ }
      else { m with style := { m.style with display := "none" } } := by
  rw [frameMarker, h]
  rfl

/-- C8: when a world position is available, the marker is shown if and only
if the projected normalized depth lies in the closed interval [0, 1]; outside
it the element is explicitly hidden.  No occlusion information enters the
decision — it depends only on the projected depth. -/
theorem c8_visibility_boundary (env : FrameEnv) (m : MarkerE) (wp : Vec3)
    (h : worldPosOf m = some wp) :
    ((frameMarker env m).style.display = "block" ↔
      (0 ≤ frameDepth env wp ∧ frameDepth env wp ≤ 1)) ∧
    (¬(0 ≤ frameDepth env wp ∧ frameDepth env wp ≤ 1) →
      (frameMarker env m).style.display = "none") := by
  rw [frameMarker_some env m wp h]
  by_cases hz : 0 ≤ frameDepth env wp ∧ frameDepth env wp ≤ 1
  · rw [if_pos hz]
    exact ⟨⟨fun _ => hz, fun _ => rfl⟩, fun hcon => absurd hz hcon⟩
  · rw [if_neg hz]
    refine ⟨⟨fun hb => ?_, fun hcon => absurd hcon hz⟩, fun _ => rfl⟩
    simp at hb

/-- C8 witness: the static marker at the origin under the demo frame
snapshot. -/
theorem c8_visibility_boundary_witness :
    worldPosOf marker8 = some ⟨0, 0, 0⟩ ∧
    ((frameMarker frameEnv0 marker8).style.display = "block" ↔
      (0 ≤ frameDepth frameEnv0 ⟨0, 0, 0⟩ ∧ frameDepth frameEnv0 ⟨0, 0, 0⟩ ≤ 1)) :=
  ⟨rfl, (c8_visibility_boundary frameEnv0 marker8 ⟨0, 0, 0⟩ rfl).1⟩

theorem planePoint_eq_none_iff (ray : RayE) :
    planePointFromRay ray = none ↔
      (|dot3 ⟨0, 1, 0⟩ ray.direction| ≤ 1 / 1000000 ∨
       dot3 ⟨0, 1, 0⟩ (ray.origin.scale (-1)) / dot3 ⟨0, 1, 0⟩ ray.direction < 0) := by
  simp only [planePointFromRay]
  split_ifs with hd ht
  · exact iff_of_false (by simp)
      (fun hor => hor.elim (fun hle => absurd hd (not_lt.mpr hle))
        (fun hlt => absurd ht (not_le.mpr hlt)))
  · exact iff_of_true rfl (Or.inr (not_le.mp ht))
  · exact iff_of_true rfl (Or.inl (not_lt.mp hd))

theorem planePoint_some (ray : RayE)
    (hd : 1 / 1000000 < |dot3 ⟨0, 1, 0⟩ ray.direction|)
    (ht : 0 ≤ dot3 ⟨0, 1, 0⟩ (ray.origin.scale (-1)) / dot3 ⟨0, 1, 0⟩ ray.direction) :
    planePointFromRay ray = some (ray.origin.add (ray.direction.scale
      (dot3 ⟨0, 1, 0⟩ (ray.origin.scale (-1)) / dot3 ⟨0, 1, 0⟩ ray.direction))) := by
  simp only [planePointFromRay]
  rw [if_pos hd, if_pos ht]

/-- C7: with all dependencies available and a pick that hit no geometry, the
pointer capture produces no anchor exactly when the ray is parallel to the
ground plane (`|dot(normal, dir)| ≤ 1e-6`) or the intersection parameter `t`
is negative; otherwise it produces an anchor whose world point is
`origin + t * direction`. -/
theorem c7_plane_fallback_rejection (sc : SceneE) (en : EngineE)
    (cam : CameraE) (cv : CanvasE) (ray : RayE) (now : ℤ) :
    (pointerCapture true false true none ray (some sc) (some en) (some cam)
        (some cv) now = none ↔
      (|dot3 ⟨0, 1, 0⟩ ray.direction| ≤ 1 / 1000000 ∨
       dot3 ⟨0, 1, 0⟩ (ray.origin.scale (-1)) / dot3 ⟨0, 1, 0⟩ ray.direction < 0)) ∧
    (1 / 1000000 < |dot3 ⟨0, 1, 0⟩ ray.direction| →
      0 ≤ dot3 ⟨0, 1, 0⟩ (ray.origin.scale (-1)) / dot3 ⟨0, 1, 0⟩ ray.direction →
      ∃ a, pointerCapture true false true none ray (some sc) (some en)
          (some cam) (some cv) now = some a ∧
        a.world = ray.origin.add (ray.direction.scale
          (dot3 ⟨0, 1, 0⟩ (ray.origin.scale (-1)) /
            dot3 ⟨0, 1, 0⟩ ray.direction))) := by
  have hstep : pointerCapture true false true none ray (some sc) (some en)
      (some cam) (some cv) now
      = match (planePointFromRay ray).map (fun w => (w, (none : Option MeshE))) with
        | none => none
        | some (world, mesh) =>
          buildAnchor (some sc) (some en) (some cam) (some cv) world mesh now := rfl
  constructor
  · cases hp : planePointFromRay ray with
    | none =>
      refine iff_of_true ?_ ((planePoint_eq_none_iff ray).mp hp)
      rw [hstep, hp]
      rfl
    | some w =>
      refine iff_of_false ?_ ?_
      · rw [hstep, hp]
        intro hcon
        exact Option.noConfusion hcon
      · intro hor
        rw [(planePoint_eq_none_iff ray).mpr hor] at hp
        exact Option.noConfusion hp
  · intro hd ht
    have hsome := planePoint_some ray hd ht
    refine ⟨⟨false,
      ray.origin.add (ray.direction.scale
        (dot3 ⟨0, 1, 0⟩ (ray.origin.scale (-1)) /
          dot3 ⟨0, 1, 0⟩ ray.direction)),
      none,
      screenOf en.renderWidth en.renderHeight cam.viewport cv.rectWidth
        cv.rectHeight sc.transformMatrix
        (ray.origin.add (ray.direction.scale
          (dot3 ⟨0, 1, 0⟩ (ray.origin.scale (-1)) /
            dot3 ⟨0, 1, 0⟩ ray.direction))),
      ⟨cam.alpha, cam.beta, cam.radius, cam.target, cam.position⟩,
      now⟩, ?_, rfl⟩
    rw [hstep, hsome]
    rfl

/-- C7 witness: a downward ray from above the plane intersects it and yields
an anchor at the intersection point. -/
theorem c7_plane_fallback_rejection_witness :
    1 / 1000000 < |dot3 ⟨0, 1, 0⟩ ray7.direction| ∧
    0 ≤ dot3 ⟨0, 1, 0⟩ (ray7.origin.scale (-1)) / dot3 ⟨0, 1, 0⟩ ray7.direction ∧
    (∃ a, pointerCapture true false true none ray7 (some demoScene)
        (some demoEngine) (some demoCamera) (some demoCanvas) 0 = some a ∧
      a.world = ray7.origin.add (ray7.direction.scale
        (dot3 ⟨0, 1, 0⟩ (ray7.origin.scale (-1)) /
          dot3 ⟨0, 1, 0⟩ ray7.direction))) :=
  ⟨by norm_num [ray7, dot3], by norm_num [ray7, dot3, Vec3.scale],
   (c7_plane_fallback_rejection demoScene demoEngine demoCamera demoCanvas
     ray7 0).2 (by norm_num [ray7, dot3])
     (by norm_num [ray7, dot3, Vec3.scale])⟩

/-- C9: when any of the scene/engine/camera/canvas dependencies is
unavailable, `buildAnchor` returns `none`, and neither `setClickedAnchor`
nor the pointer-down handler changes the retained `clickedAnchorRef`; no
exception escapes (all paths are total). -/
theorem c9_capture_abort_atomicity (scene : Option SceneE)
    (engine : Option EngineE) (camera : Option CameraE)
    (canvas : Option CanvasE) (world : Vec3) (mesh : Option MeshE) (now : ℤ)
    (ref : Option AnchorA) (isPointerDown isPlaying commentMode : Bool)
    (pick : Option PickE) (ray : RayE)
    (h : scene = none ∨ engine = none ∨ camera = none ∨ canvas = none) :
    buildAnchor scene engine camera canvas world mesh now = none ∧
    setClickedAnchor scene engine camera canvas world mesh now ref = ref ∧
    pointerDownStep isPointerDown isPlaying commentMode pick ray scene engine
      camera canvas now ref = ref := by
  have hb : ∀ (w : Vec3) (m : Option MeshE) (n : ℤ),
      buildAnchor scene engine camera canvas w m n = none := by
    intro w m n
    rcases h with h | h | h | h
    · subst h
      rfl
    · subst h
      cases scene <;> rfl
    · subst h
      cases scene <;> cases engine <;> rfl
    · subst h
      cases scene <;> cases engine <;> cases camera <;> rfl
  have hc : pointerCapture isPointerDown isPlaying commentMode pick ray scene
      engine camera canvas now = none := by
    cases isPointerDown with
    | false => rfl
    | true =>
      cases isPlaying with
      | true => rfl
      | false =>
        cases commentMode with
        | false => rfl
        | true =>
          cases hcv : canvas with
          | none => rfl
          | some cv =>
            show (match pickOrFallback pick ray with
                  | none => none
                  | some (w, m) =>
                    buildAnchor scene engine camera (some cv) w m now) = none
            cases pickOrFallback pick ray with
            | none => rfl
            | some wm =>
              obtain ⟨w, m⟩ := wm
              rw [← hcv]
              exact hb w m now
  refine ⟨hb world mesh now, ?_, ?_⟩
  · show (match buildAnchor scene engine camera canvas world mesh now with
          | none => ref
          | some a => some a) = ref
    rw [hb world mesh now]
  · show (match pointerCapture isPointerDown isPlaying commentMode pick ray
            scene engine camera canvas now with
          | none => ref
          | some a => some a) = ref
    rw [hc]

/-- C9 witness: with the scene ref missing (the other dependencies present),
a concrete capture attempt aborts and leaves a retained anchor in place. -/
theorem c9_capture_abort_atomicity_witness :
    ((none : Option SceneE) = none ∨ (some demoEngine : Option EngineE) = none
      ∨ (some demoCamera : Option CameraE) = none
      ∨ (some demoCanvas : Option CanvasE) = none) ∧
    (buildAnchor none (some demoEngine) (some demoCamera) (some demoCanvas)
        ⟨0, 0, 0⟩ none 0 = none ∧
      setClickedAnchor none (some demoEngine) (some demoCamera)
        (some demoCanvas) ⟨0, 0, 0⟩ none 0 (some anchor10) = some anchor10 ∧
      pointerDownStep true false true none ray7 none (some demoEngine)
        (some demoCamera) (some demoCanvas) 0 (some anchor10) = some anchor10) :=
  ⟨Or.inl rfl,
   c9_capture_abort_atomicity none (some demoEngine) (some demoCamera)
     (some demoCanvas) ⟨0, 0, 0⟩ none 0 (some anchor10) true false true none
     ray7 (Or.inl rfl)⟩

/-- C1: the retained-anchor redelivery is not single-shot.  After one capture
with no handler available, every later handler identity change re-delivers
the same retained anchor (`clickedAnchorRef` is never cleared): a trace with
one capture and two handler changes produces two `addContext` calls with the
same anchor, violating the at-most-once delivery the claim states. -/
theorem c1_redelivery_not_once :
    (hookRun "scene-1" ⟨none, none, []⟩
      [HookEv.capture anchor10, HookEv.handlerChange (some 1),
       HookEv.handlerChange (some 2)]).delivered
      = [(anchor10, "scene-1"), (anchor10, "scene-1")] ∧
    (hookRun "scene-1" ⟨none, none, []⟩
      [HookEv.capture anchor10, HookEv.handlerChange (some 1),
       HookEv.handlerChange (some 2)]).retained = some anchor10 := ⟨rfl, rfl⟩
